import Mathlib

/-!
Shallow embedding of the bibekpdl/AgenticAIWorkshop2025 repository.

Sources embedded:
  src/weatherAgent/myWeatherAgent2/agent.py  (geocode_city, get_weather, get_current_time)
  src/recipeAgent/myRecipeAgent2/agent.py    (get_recipe_details, get_nutrition_data)
  src/recipeAgent/myRecipeAgent3/agent.py    (get_nutrition_data without the
                                              identifier fallback, food_assistant_pipeline)
  src/recipeAgent/myRecipeAgent4/agent.py    (same pipeline wiring)

JSON response bodies are modeled by the inductive type JVal, Python numbers by
exact rationals, and Python exceptions by an explicit error type threaded
through Except.  Each outbound HTTP call is modeled by an environment field
holding either a transport-level exception or a status code plus parsed body.
-/

/-- An exact Python number: an integer numerator over a positive natural
denominator, kept unnormalized so that every operation computes by integer
arithmetic alone.  Values built from JSON keep denominator 1 exactly for
integer literals, which is what separates Python int from float rendering.
Fractions are never reduced; equality and order compare cross products. -/
structure PyNum where
  n : Int
  d : Nat
deriving DecidableEq

instance : OfNat PyNum k := ⟨⟨k, 1⟩⟩

instance : Neg PyNum := ⟨fun a => ⟨-a.n, a.d⟩⟩

instance : Add PyNum := ⟨fun a b => ⟨a.n * b.d + b.n * a.d, a.d * b.d⟩⟩

instance : Sub PyNum := ⟨fun a b => ⟨a.n * b.d - b.n * a.d, a.d * b.d⟩⟩

instance : Mul PyNum := ⟨fun a b => ⟨a.n * b.n, a.d * b.d⟩⟩

/-- Reciprocal; the zero case is junk (Python would raise ZeroDivisionError,
and the only division in the embedded sources is by the literal 5). -/
def PyNum.inv (b : PyNum) : PyNum :=
  if 0 ≤ b.n then ⟨(b.d : Int), b.n.toNat⟩ else ⟨-(b.d : Int), (-b.n).toNat⟩

instance : Div PyNum := ⟨fun a b => a * b.inv⟩

/-- Python == on numbers: value equality by cross products. -/
def PyNum.beq (a b : PyNum) : Bool := a.n * b.d == b.n * a.d

/-- Python < on numbers (denominators are positive by construction). -/
def PyNum.ltb (a b : PyNum) : Bool := decide (a.n * b.d < b.n * a.d)

/-- Mathematical floor of a number, by flooring integer division. -/
def PyNum.floorI (a : PyNum) : Int := a.n.fdiv a.d

/-- A parsed JSON value as Python sees it: None, bool, number, string, list,
dict.  Numbers are exact (all JSON literals are finite decimals). -/
inductive JVal where
  | null
  | bool (b : Bool)
  | num (q : PyNum)
  | str (s : String)
  | arr (xs : List JVal)
  | obj (fields : List (String × JVal))

/-- A Python exception class as relevant to the adapters.  requestExc stands
for requests.RequestException and all its subclasses (HTTPError, timeout,
JSON decode errors raised by response.json in recent requests versions). -/
inductive PyErr where
  | requestExc (msg : String)
  | typeError (msg : String)
  | attributeError (msg : String)
  | indexError
  | keyError (msg : String)
  | valueError (msg : String)
  | sqliteError (msg : String)
deriving DecidableEq

/-- Is the exception a transport-level requests.RequestException? -/
def PyErr.isTransport : PyErr → Bool
  | .requestExc _ => true
  | _ => false

/-- String rendering of an exception, as interpolated by f-strings. -/
def pyErrStr : PyErr → String
  | .requestExc m => m
  | .typeError m => m
  | .attributeError m => m
  | .indexError => "list index out of range"
  | .keyError m => m
  | .valueError m => m
  | .sqliteError m => m

mutual

/-- Python equality (==) on JSON values, used by list membership and
list.index.  Structural on lists and dicts. -/
def jvalBeq : JVal → JVal → Bool
  | .null, .null => true
  | .bool a, .bool b => a == b
  | .bool a, .num b => PyNum.beq (if a then 1 else 0) b
  | .num a, .bool b => PyNum.beq a (if b then 1 else 0)
  | .num a, .num b => PyNum.beq a b
  | .str a, .str b => a == b
  | .arr a, .arr b => jlistBeq a b
  | .obj a, .obj b => jobjBeq a b
  | _, _ => false

def jlistBeq : List JVal → List JVal → Bool
  | [], [] => true
  | x :: xs, y :: ys => jvalBeq x y && jlistBeq xs ys
  | _, _ => false

def jobjBeq : List (String × JVal) → List (String × JVal) → Bool
  | [], [] => true
  | (k, x) :: xs, (l, y) :: ys => k == l && jvalBeq x y && jobjBeq xs ys
  | _, _ => false

end

/-- Python truthiness of a JSON value. -/
def pyTruthy : JVal → Bool
  | .null => false
  | .bool b => b
  | .num q => !PyNum.beq q 0
  | .str s => !s.isEmpty
  | .arr xs => !xs.isEmpty
  | .obj fs => !fs.isEmpty

/-- First binding of a key in a dict (Python dicts have unique keys; the
embedding keeps the first one, matching dict lookup on any well-formed dict). -/
def objLookup (fs : List (String × JVal)) (k : String) : Option JVal :=
  (fs.find? (fun p => p.1 == k)).map Prod.snd

/-- dict.get with a default. -/
def objGetD (fs : List (String × JVal)) (k : String) (d : JVal) : JVal :=
  (objLookup fs k).getD d

/-- value.get(key) on an arbitrary value: AttributeError unless it is a dict,
None when the key is absent. -/
def pyGet (v : JVal) (k : String) : Except PyErr JVal :=
  match v with
  | .obj fs => .ok (objGetD fs k .null)
  | _ => .error (.attributeError ("object has no attribute get: " ++ k))

/-- value.get(key, default) on an arbitrary value. -/
def pyGetD (v : JVal) (k : String) (d : JVal) : Except PyErr JVal :=
  match v with
  | .obj fs => .ok (objGetD fs k d)
  | _ => .error (.attributeError ("object has no attribute get: " ++ k))

/-- value[key] subscripting with a string key: KeyError when absent,
TypeError on a non-dict. -/
def pyItem (v : JVal) (k : String) : Except PyErr JVal :=
  match v with
  | .obj fs =>
    match objLookup fs k with
    | some x => .ok x
    | none => .error (.keyError k)
  | _ => .error (.typeError "object is not subscriptable")

/-- value[i] subscripting with a non-negative integer index.  Lists and
strings are indexable; everything else raises (the exact exception class of
pathological cases such as dict[int] is collapsed to TypeError, which no
claim inspects). -/
def pyIndex (v : JVal) (i : Nat) : Except PyErr JVal :=
  match v with
  | .arr xs =>
    match xs.get? i with
    | some x => .ok x
    | none => .error .indexError
  | .str s =>
    match s.data.get? i with
    | some c => .ok (.str (String.singleton c))
    | none => .error .indexError
  | _ => .error (.typeError "object is not subscriptable")

/-- len(value): lists, strings and dicts are sized, the rest raise. -/
def pyLen (v : JVal) : Except PyErr Nat :=
  match v with
  | .arr xs => .ok xs.length
  | .str s => .ok s.length
  | .obj fs => .ok fs.length
  | _ => .error (.typeError "object has no len")

/-- isinstance(v, (int, float)), yielding the numeric value.  Python bools
are instances of int and count as 1 or 0. -/
def pyNumVal : JVal → Option PyNum
  | .num q => some q
  | .bool b => some (if b then 1 else 0)
  | _ => none

/-- Decimal digits of the fraction rem over den, with fuel bounding the
expansion (JSON literals are finite decimals, so the expansion terminates
well inside the fuel for every value that can occur). -/
def decDigits (rem den : Nat) : Nat → List Nat
  | 0 => []
  | fuel + 1 =>
    if rem == 0 then []
    else (rem * 10 / den) :: decDigits (rem * 10 % den) den fuel

/-- Decimal rendering of a Python float value (str of a float with a
terminating decimal expansion). -/
def pyNumDecimalStr (q : PyNum) : String :=
  let an := q.n.natAbs
  let ip := an / q.d
  let ds := decDigits (an % q.d) q.d 20
  let fracStr := if ds.isEmpty then "0" else String.join (ds.map (fun d0 => toString d0))
  (if q.n < 0 then "-" else "") ++ toString ip ++ "." ++ fracStr

/-- str(v) as used inside f-strings.  The rendering of nested lists and
dicts is abstracted (no adapter interpolates one on any path a claim
touches). -/
def pyStr : JVal → String
  | .null => "None"
  | .bool b => if b then "True" else "False"
  | .num q => if q.d == 1 then toString q.n else pyNumDecimalStr q
  | .str s => s
  | .arr _ => "<list>"
  | .obj _ => "<dict>"

/-- Round a number to the nearest integer, ties to even (Python float
formatting rounds half to even). -/
def roundHalfEven (r : PyNum) : Int :=
  let f := r.floorI
  let frac := r - ⟨f, 1⟩
  if frac.ltb ⟨1, 2⟩ then f
  else if (PyNum.ltb ⟨1, 2⟩ frac) then f + 1
  else if f % 2 = 0 then f else f + 1

/-- Fixed-point rendering with one decimal digit: format(q, ".1f"). -/
def fmtFixed1 (q : PyNum) : String :=
  let n := roundHalfEven (q * 10)
  (if n < 0 then "-" else "") ++ toString (n.natAbs / 10) ++ "." ++ toString (n.natAbs % 10)

/-- format(v, ".1f") on an arbitrary value: numbers (and bools, which are
ints) format, None and containers raise TypeError, strings raise ValueError. -/
def pyFormatFixed1 : JVal → Except PyErr String
  | .num q => .ok (fmtFixed1 q)
  | .bool b => .ok (fmtFixed1 (if b then 1 else 0))
  | .str _ => .error (.valueError "Unknown format code f for object of type str")
  | .null => .error (.typeError "unsupported format string passed to NoneType.__format__")
  | .arr _ => .error (.typeError "unsupported format string passed to list.__format__")
  | .obj _ => .error (.typeError "unsupported format string passed to dict.__format__")

/-- Outcome of one outbound requests.get call: either a transport exception
raised during the call, or a response with a status code and parsed JSON
body. -/
inductive HttpOutcome where
  | exn (msg : String)
  | resp (status : Nat) (body : JVal)

/-- response.raise_for_status(): HTTPError (a RequestException) on 4xx/5xx. -/
def raiseForStatus (status : Nat) : Except PyErr Unit :=
  if 400 ≤ status then .error (.requestExc ("HTTP error " ++ toString status))
  else .ok ()

/-- except requests.RequestException as e: absorb transport exceptions into a
handler value; every other exception keeps propagating. -/
def pyCatchRequest (x : Except PyErr α) (h : String → α) : Except PyErr α :=
  match x with
  | .error (.requestExc m) => .ok (h m)
  | .error e => .error e
  | .ok v => .ok v

/-- except Exception as e: absorb every exception into a handler value. -/
def pyCatchAll (x : Except PyErr α) (h : PyErr → α) : Except PyErr α :=
  .ok (match x with
       | .ok v => v
       | .error e => h e)

/-- except requests.RequestException followed by except Exception, the
two-handler ladder of get_current_time. -/
def pyCatch2 (x : Except PyErr α) (hReq : String → α) (hAll : PyErr → α) : α :=
  match x with
  | .ok v => v
  | .error (.requestExc m) => hReq m
  | .error e => hAll e

/-- One outbound HTTP request, identified by endpoint and the data that went
into its parameters. -/
inductive Req where
  | geocode (name : String)
  | timeapi (tz : JVal)
  | offSearch (terms : String)
  | offProduct (id : String)

-- ── Weather agent: src/weatherAgent/myWeatherAgent2/agent.py ──────────────

/-- Responses the three weather-agent endpoints would yield for the run under
consideration (the geocoding search, the forecast call, the TimeAPI call). -/
structure WeatherEnv where
  geocodeResp : HttpOutcome
  forecastResp : HttpOutcome
  timeResp : HttpOutcome

/-- The result dict built by geocode_city on success: the four city.get
fields, each None when absent. -/
structure GeoFields where
  name : JVal
  latitude : JVal
  longitude : JVal
  timezone : JVal

/-- Return value of geocode_city: status success with the result fields, or
status error with error_message. -/
inductive GeoOut where
  | ok (f : GeoFields)
  | err (msg : String)

/-- geocode_city (agent.py lines 8-42): one geocoding request, raise_for_status,
read results (or []), not-found error on an empty list, else the first
item with .get on each field; requests.RequestException absorbed into a
Geocoding error message. -/
def geocode_city (env : WeatherEnv) (name : String) : Except PyErr GeoOut :=
  pyCatchRequest
    (match env.geocodeResp with
     | .exn m => .error (.requestExc m)
     | .resp status body => do
        let _ ← raiseForStatus status
        let results ← pyGet body "results"
        if pyTruthy results then do
          let city ← pyIndex results 0
          match city with
          | .obj cf =>
            pure (GeoOut.ok
              { name := objGetD cf "name" .null,
                latitude := objGetD cf "latitude" .null,
                longitude := objGetD cf "longitude" .null,
                timezone := objGetD cf "timezone" .null })
          | _ => .error (.attributeError "object has no attribute get")
        else
          pure (GeoOut.err ("City \x27" ++ name ++ "\x27 not found.")))
    (fun m => .err ("Geocoding error: " ++ m))

/-- The static weather_map dict (agent.py lines 80-85). -/
def weather_map : List (PyNum × String) :=
  [(0, "Clear sky"), (1, "Mainly clear"), (2, "Partly cloudy"), (3, "Overcast"),
   (45, "Fog"), (48, "Depositing rime fog"), (51, "Light drizzle"),
   (61, "Slight rain"), (63, "Moderate rain"), (65, "Heavy rain"),
   (71, "Slight snow"), (73, "Moderate snow"), (75, "Heavy snow"),
   (95, "Thunderstorm")]

/-- weather_map.get(code, "Unknown"): numeric keys hit the table, hashable
non-numeric keys miss and give the default, unhashable keys (lists, dicts)
raise TypeError. -/
def weatherDesc (v : JVal) : Except PyErr String :=
  match v with
  | .arr _ => .error (.typeError "unhashable type: list")
  | .obj _ => .error (.typeError "unhashable type: dict")
  | _ =>
    match pyNumVal v with
    | some q => .ok (((weather_map.find? (fun p => PyNum.beq p.1 q)).map Prod.snd).getD "Unknown")
    | none => .ok "Unknown"

/-- The Celsius-to-Fahrenheit expression tc * 9/5 + 32 of agent.py line 88. -/
def c2f (c : PyNum) : PyNum := c * 9 / 5 + 32

/-- Humidity alignment (agent.py lines 73-78): if the current-conditions
timestamp is in the hourly time list, index the humidity list at its first
position; otherwise the first humidity value if any, else None.  A non-list
hourly time value is collapsed to TypeError (Python in-tests on non-lists
raise or do membership on keys; no claim touches that corner). -/
def selectHumidity (times hums tnow : JVal) : Except PyErr JVal :=
  match times with
  | .arr ts =>
    match ts.findIdx? (fun t => jvalBeq t tnow) with
    | some i => pyIndex hums i
    | none => if pyTruthy hums then pyIndex hums 0 else .ok .null
  | _ => .error (.typeError "argument is not iterable")

/-- Lines 69-94 of agent.py: extract current weather and hourly series from
the forecast body, align humidity, map the weather code, convert the
temperature, and build the report f-string.  The two hourly lookups mirror
the two data.get("hourly", {}) expressions of the source. -/
def composeReport (name : JVal) (data : JVal) : Except PyErr String := do
  let cw ← pyGetD data "current_weather" (.obj [])
  let hourly1 ← pyGetD data "hourly" (.obj [])
  let times ← pyGetD hourly1 "time" (.arr [])
  let hourly2 ← pyGetD data "hourly" (.obj [])
  let hums ← pyGetD hourly2 "relativehumidity_2m" (.arr [])
  let tnow ← pyGet cw "time"
  let humidity ← selectHumidity times hums tnow
  let code ← pyGet cw "weathercode"
  let desc ← weatherDesc code
  let tc ← pyGet cw "temperature"
  let tf : JVal :=
    match pyNumVal tc with
    | some q => .num (c2f q)
    | none => .null
  let tcs ← pyFormatFixed1 tc
  let tfs ← pyFormatFixed1 tf
  let wind ← pyGetD cw "windspeed" (.str "N/A")
  pure ("The weather in " ++ pyStr name ++ " is " ++ desc ++ " with " ++ tcs ++
    "°C (" ++ tfs ++ "°F), humidity " ++ pyStr humidity ++ "% and wind " ++
    pyStr wind ++ " km/h.")

/-- Return value of get_weather: status success with a report, or status
error with error_message. -/
inductive WOut where
  | success (report : String)
  | err (msg : String)

/-- get_weather (agent.py lines 45-97): geocode first and pass a geocoding
failure through unchanged; then one forecast request (latitude and longitude
feed the request, which the environment answers) guarded by a
requests.RequestException handler producing a Weather lookup failed message. -/
def get_weather (env : WeatherEnv) (city : String) : Except PyErr WOut :=
  match geocode_city env city with
  | .error e => .error e
  | .ok (.err m) => .ok (.err m)
  | .ok (.ok f) =>
    pyCatchRequest
      (match env.forecastResp with
       | .exn m => .error (.requestExc m)
       | .resp status body => do
          let _ ← raiseForStatus status
          let report ← composeReport f.name body
          pure (WOut.success report))
      (fun m => .err ("Weather lookup failed: " ++ m))

/-- A parsed datetime as produced by datetime.fromisoformat. -/
structure PyDateTime where
  year : Nat
  month : Nat
  day : Nat
  hour : Nat
  minute : Nat
  second : Nat
deriving DecidableEq

/-- Split a character list on a separator character, keeping empty pieces,
as str.split with a one-character separator does. -/
def splitOnChar (c : Char) : List Char → List (List Char)
  | [] => [[]]
  | a :: t =>
    match splitOnChar c t with
    | h :: r => if a == c then [] :: h :: r else (a :: h) :: r
    | [] => [[a]]

/-- Value of a digit sequence read in base ten. -/
def digitsVal (l : List Char) : Nat :=
  l.foldl (fun acc c => acc * 10 + (c.toNat - 48)) 0

/-- A fixed-width all-digit numeric field. -/
def digitsNat (l : List Char) (len : Nat) : Option Nat :=
  if l.length == len && l.all Char.isDigit then some (digitsVal l) else none

/-- Length of a month, with the Gregorian leap rule, as the datetime
constructor validates day fields. -/
def daysInMonth (y m : Nat) : Nat :=
  if m == 2 then
    (if (y % 4 == 0 && y % 100 != 0) || y % 400 == 0 then 29 else 28)
  else if m == 4 || m == 6 || m == 9 || m == 11 then 30
  else 31

/-- The extended ISO date YYYY-MM-DD occupying exactly ten characters, with
the year, month and day ranges the datetime constructor enforces. -/
def parseFullDate : List Char → Option (Nat × Nat × Nat)
  | [y1, y2, y3, y4, s1, m1, m2, s2, d1, d2] =>
    if y1.isDigit && y2.isDigit && y3.isDigit && y4.isDigit && (s1 == '-') &&
        m1.isDigit && m2.isDigit && (s2 == '-') && d1.isDigit && d2.isDigit then
      let yn := digitsVal [y1, y2, y3, y4]
      let mn := digitsVal [m1, m2]
      let dn := digitsVal [d1, d2]
      if 1 ≤ yn && 1 ≤ mn && mn ≤ 12 && 1 ≤ dn && dn ≤ daysInMonth yn mn then
        some (yn, mn, dn)
      else none
    else none
  | _ => none

/-- A seconds field with an optional fractional part of exactly three or six
digits (the widths every supported interpreter accepts). -/
def parseSecond (l : List Char) : Option Nat :=
  match splitOnChar '.' l with
  | [ss] => digitsNat ss 2
  | [ss, fr] =>
    if (fr.length == 3 || fr.length == 6) && fr.all Char.isDigit then
      digitsNat ss 2
    else none
  | _ => none

/-- ISO time part HH, HH:MM or HH:MM:SS with an optional fractional part. -/
def parseIsoTime (l : List Char) : Option (Nat × Nat × Nat) :=
  match splitOnChar ':' l with
  | [h] => do
    let hn ← digitsNat h 2
    if hn ≤ 23 then some (hn, 0, 0) else none
  | [h, m] => do
    let hn ← digitsNat h 2
    let mn ← digitsNat m 2
    if hn ≤ 23 && mn ≤ 59 then some (hn, mn, 0) else none
  | [h, m, sec] => do
    let hn ← digitsNat h 2
    let mn ← digitsNat m 2
    let sn ← parseSecond sec
    if hn ≤ 23 && mn ≤ 59 && sn ≤ 59 then some (hn, mn, sn) else none
  | _ => none

/-- A seconds field of a UTC offset, whose fractional part has exactly six
digits when present. -/
def parseOffSecond (l : List Char) : Option Nat :=
  match splitOnChar '.' l with
  | [ss] => digitsNat ss 2
  | [ss, fr] =>
    if fr.length == 6 && fr.all Char.isDigit then digitsNat ss 2 else none
  | _ => none

/-- A UTC offset of the colon form, sign then HH:MM or HH:MM:SS with an
optional six-digit fraction, the form every supported interpreter accepts. -/
def validOffset : List Char → Bool
  | [] => false
  | sign :: rest =>
    (sign == '+' || sign == '-') &&
      (match splitOnChar ':' rest with
       | [hh, mm] =>
         (match digitsNat hh 2, digitsNat mm 2 with
          | some h, some m => h ≤ 23 && m ≤ 59
          | _, _ => false)
       | [hh, mm, sec] =>
         (match digitsNat hh 2, digitsNat mm 2, parseOffSecond sec with
          | some h, some m, some s => h ≤ 23 && m ≤ 59 && s ≤ 59
          | _, _, _ => false)
       | _ => false)

/-- The time-of-day part of an ISO timestamp with an optional trailing UTC
offset, which begins at the first sign character; the offset only validates
(strftime of the format %Y-%m-%d %H:%M:%S prints the wall-clock fields and
ignores tzinfo, so the parsed offset never reaches the report). -/
def parseTimeAndOffset (l : List Char) : Option (Nat × Nat × Nat) :=
  let ts := l.takeWhile (fun c => !(c == '+' || c == '-'))
  let off := l.dropWhile (fun c => !(c == '+' || c == '-'))
  match off with
  | [] => parseIsoTime ts
  | _ :: _ => if validOffset off then parseIsoTime ts else none

/-- datetime.fromisoformat, modeled soundly for every supported CPython
(3.7 and later): a ten-character extended date, optionally followed by any
single separator character, a time HH[:MM[:SS[.fff or .ffffff]]] and a
colon-form UTC offset.  Everything this function accepts is accepted by
every supported interpreter with the same wall-clock fields.  Acceptance is
deliberately not complete (interpreter versions differ on extras such as a
Z suffix or free-length fractions), so the parse-failure theorem for the
time adapter relies only on parseIso_none_of_bad_year below, whose inputs
no interpreter version accepts. -/
def parseIso (s : String) : Option PyDateTime :=
  match parseFullDate (s.data.take 10) with
  | none => none
  | some x =>
    match s.data.drop 10 with
    | [] => some ⟨x.1, x.2.1, x.2.2, 0, 0, 0⟩
    | _ :: timepart =>
      (parseTimeAndOffset timepart).map
        (fun t => ⟨x.1, x.2.1, x.2.2, t.1, t.2.1, t.2.2⟩)

/-- datetime.fromisoformat on an arbitrary value: TypeError on a non-string,
ValueError on an unparseable string. -/
def pyFromIso : JVal → Except PyErr PyDateTime
  | .str s =>
    match parseIso s with
    | some dt => .ok dt
    | none => .error (.valueError ("Invalid isoformat string: " ++ s))
  | _ => .error (.typeError "fromisoformat: argument must be str")

/-- A character list whose first four entries are not all digits never
parses as a date: every format datetime.fromisoformat accepts, in every
supported interpreter version, begins with a four-digit year. -/
theorem parseFullDate_none_of_bad4 (L : List Char)
    (hL : (L.take 4).all Char.isDigit = false) : parseFullDate L = none := by
  rcases L with _ | ⟨a, _ | ⟨b, _ | ⟨c, _ | ⟨d, _ | ⟨e, _ | ⟨f, _ | ⟨g, _ |
    ⟨h, _ | ⟨i, _ | ⟨j, rest⟩⟩⟩⟩⟩⟩⟩⟩⟩⟩
  case nil => rfl
  case cons.nil => rfl
  case cons.cons.nil => rfl
  case cons.cons.cons.nil => rfl
  case cons.cons.cons.cons.nil => rfl
  case cons.cons.cons.cons.cons.nil => rfl
  case cons.cons.cons.cons.cons.cons.nil => rfl
  case cons.cons.cons.cons.cons.cons.cons.nil => rfl
  case cons.cons.cons.cons.cons.cons.cons.cons.nil => rfl
  case cons.cons.cons.cons.cons.cons.cons.cons.cons.nil => rfl
  case cons.cons.cons.cons.cons.cons.cons.cons.cons.cons =>
    rcases rest with _ | ⟨k, rest2⟩
    case cons => rfl
    case nil =>
      simp only [List.take_succ_cons, List.take_zero, List.all_cons,
        List.all_nil, Bool.and_true] at hL
      rcases Bool.and_eq_false_iff.mp hL with h1 | h23
      · simp [parseFullDate, h1]
      · rcases Bool.and_eq_false_iff.mp h23 with h2 | h34
        · simp [parseFullDate, h2]
        · rcases Bool.and_eq_false_iff.mp h34 with h3 | h4
          · simp [parseFullDate, h3]
          · simp [parseFullDate, h4]

/-- An ISO string whose first four characters are not all digits is a parse
failure in the model, as it is for every supported interpreter. -/
theorem parseIso_none_of_bad_year (s : String)
    (h4 : (s.data.take 4).all Char.isDigit = false) : parseIso s = none := by
  have h10 : ((s.data.take 10).take 4).all Char.isDigit = false := by
    rw [List.take_take]
    simpa using h4
  simp [parseIso, parseFullDate_none_of_bad4 _ h10]

/-- d + "T" + t: string concatenation, TypeError unless both are strings. -/
def pyConcatT : JVal → JVal → Except PyErr JVal
  | .str d, .str t => .ok (.str (d ++ "T" ++ t))
  | _, _ => .error (.typeError "can only concatenate str to str")

/-- Zero-padded two-digit field. -/
def pad2 (n : Nat) : String :=
  if n < 10 then "0" ++ toString n else toString n

/-- Zero-padded four-digit field. -/
def pad4 (n : Nat) : String :=
  if n < 10 then "000" ++ toString n
  else if n < 100 then "00" ++ toString n
  else if n < 1000 then "0" ++ toString n
  else toString n

/-- dt.strftime of the format built on agent.py line 128: the timestamp as
YYYY-MM-DD HH:MM:SS followed by the timezone value in parentheses (a
timezone string containing strftime directives is rendered literally in the
model; no claim exercises one). -/
def fmtDT (dt : PyDateTime) (tz : JVal) : String :=
  pad4 dt.year ++ "-" ++ pad2 dt.month ++ "-" ++ pad2 dt.day ++ " " ++
  pad2 dt.hour ++ ":" ++ pad2 dt.minute ++ ":" ++ pad2 dt.second ++
  " (" ++ pyStr tz ++ ")"

/-- Return value of get_current_time. -/
inductive TOut where
  | success (report : String)
  | err (msg : String)

/-- get_current_time (agent.py lines 100-133): geocode (failures passed
through), then one TimeAPI request inside a try with two handlers, a
requests.RequestException handler producing Time lookup failed and an
Exception handler producing Time parsing failed.  The second component
records the outbound requests issued, in order. -/
def get_current_time (env : WeatherEnv) (city : String) :
    Except PyErr TOut × List Req :=
  match geocode_city env city with
  | .error e => (.error e, [Req.geocode city])
  | .ok (.err m) => (.ok (.err m), [Req.geocode city])
  | .ok (.ok f) =>
    let tz := f.timezone
    let attempt : Except PyErr TOut :=
      match env.timeResp with
      | .exn m => .error (.requestExc m)
      | .resp status body => do
        let _ ← raiseForStatus status
        let dtv ← pyGet body "dateTime"
        let dtStr ←
          if pyTruthy dtv then pure dtv
          else do
            let d ← pyGet body "date"
            let t ← pyGet body "time"
            pyConcatT d t
        let dt ← pyFromIso dtStr
        pure (TOut.success (fmtDT dt tz))
    (.ok (pyCatch2 attempt
        (fun m => TOut.err ("Time lookup failed: " ++ m))
        (fun e => TOut.err ("Time parsing failed: " ++ pyErrStr e))),
     [Req.geocode city, Req.timeapi tz])

-- ── Recipe store adapter: src/recipeAgent/myRecipeAgent2+3/agent.py ───────

/-- SQLite LIKE matching as used by the query Title LIKE pattern: percent
matches any sequence, underscore matches any single character, and plain
characters compare case-insensitively over ASCII (SQLite default). -/
def likeM : List Char → List Char → Bool
  | [], t => t.isEmpty
  | c :: p, t =>
    if c == '%' then
      (List.tails t).any (fun s => likeM p s)
    else if c == '_' then
      (match t with
       | [] => false
       | _ :: t2 => likeM p t2)
    else
      (match t with
       | [] => false
       | a :: t2 => (c.toLower == a.toLower) && likeM p t2)

/-- One row of the recipes table, in rowid order (SELECT without ORDER BY
returns rows in store order, and fetchone takes the first). -/
structure RecipeRow where
  Title : String
  Ingredients : String
  Instructions : String
deriving DecidableEq

/-- Outcome of touching the local SQLite store: an I/O or database error
raised by connect/execute, or the table contents. -/
inductive DbEnv where
  | ioError (msg : String)
  | table (rows : List RecipeRow)

/-- Return value of get_recipe_details. -/
inductive RecipeOut where
  | found (title ingredients instructions : String)
  | err (msg : String)
deriving DecidableEq

/-- Body of get_recipe_details before its catch-all handler: query the store
with Title LIKE the query wrapped in percent signs, take the first row. -/
def recipeRaw (env : DbEnv) (dish_name : String) : Except PyErr RecipeOut :=
  match env with
  | .ioError m => .error (.sqliteError m)
  | .table rows =>
    match rows.find? (fun r => likeM ('%' :: (dish_name.data ++ ['%'])) r.Title.data) with
    | some r => .ok (.found r.Title r.Ingredients r.Instructions)
    | none => .ok (.err "Recipe not found in the local database.")

/-- get_recipe_details (myRecipeAgent2 agent.py lines 22-41, identical in
myRecipeAgent3 lines 17-36): the LIKE query under a catch-all except that
maps any exception to a Database error value. -/
def get_recipe_details (env : DbEnv) (dish_name : String) : Except PyErr RecipeOut :=
  pyCatchAll (recipeRaw env dish_name)
    (fun e => .err ("Database error: " ++ pyErrStr e))

-- ── Nutrition adapter: Open Food Facts, two variants ──────────────────────

/-- Responses of the two Open Food Facts endpoints for the run under
consideration: the search-by-term call and the direct product lookup. -/
structure NutritionEnv where
  searchResp : HttpOutcome
  productResp : HttpOutcome

/-- Return value of get_nutrition_data: the four product fields or an error
message. -/
inductive NOut where
  | success (product_name nutriments categories ingredients_text : JVal)
  | err (msg : String)

/-- The four product.get field reads shared by both stages and both
variants, with their literal defaults. -/
def productFields (pf : List (String × JVal)) : NOut :=
  .success (objGetD pf "product_name" (.str "N/A"))
    (objGetD pf "nutriments" (.obj []))
    (objGetD pf "categories" (.str "N/A"))
    (objGetD pf "ingredients_text" (.str "N/A"))

/-- Stage 1 of get_nutrition_data: on a 200 search response whose products
list is non-empty, return the first product fields; none means fall
through. -/
def searchStage (status : Nat) (body : JVal) : Except PyErr (Option NOut) :=
  if status == 200 then do
    let products ← pyGet body "products"
    if pyTruthy products then do
      let productsAgain ← pyItem body "products"
      let n ← pyLen productsAgain
      if 0 < n then do
        let p ← pyIndex products 0
        match p with
        | .obj pf => pure (some (productFields pf))
        | _ => .error (.attributeError "object has no attribute get")
      else pure none
    else pure none
  else pure none

/-- Stage 2 of the myRecipeAgent2 variant: on a 200 product response whose
status field equals 1, return the product fields read by direct
subscripting; none means fall through to the final failure value. -/
def productStage (status : Nat) (body : JVal) : Except PyErr (Option NOut) :=
  if status == 200 then do
    let st ← pyGet body "status"
    if jvalBeq st (.num 1) then do
      let p ← pyItem body "product"
      match p with
      | .obj pf => pure (some (productFields pf))
      | _ => .error (.attributeError "object has no attribute get")
    else pure none
  else pure none

/-- Body of the myRecipeAgent2 get_nutrition_data before its catch-all: the
search stage, falling through to the direct lookup only when the search
response arrived and produced no product; a transport exception during the
search propagates to the handler without reaching the second request.  The
second component records the outbound requests issued. -/
def nutritionRaw (env : NutritionEnv) (query : String) :
    Except PyErr NOut × List Req :=
  let log1 := [Req.offSearch query]
  match env.searchResp with
  | .exn m => (.error (.requestExc m), log1)
  | .resp status body =>
    match searchStage status body with
    | .error e => (.error e, log1)
    | .ok (some out) => (.ok out, log1)
    | .ok none =>
      let log2 := log1 ++ [Req.offProduct query]
      match env.productResp with
      | .exn m => (.error (.requestExc m), log2)
      | .resp st2 b2 =>
        match productStage st2 b2 with
        | .error e => (.error e, log2)
        | .ok (some out) => (.ok out, log2)
        | .ok none => (.ok (.err "Could not retrieve nutritional data from the API."), log2)

/-- get_nutrition_data (myRecipeAgent2 agent.py lines 44-76): the two-stage
body under a catch-all except mapping any exception to an API error value. -/
def get_nutrition_data (env : NutritionEnv) (query : String) :
    Except PyErr NOut × List Req :=
  let r := nutritionRaw env query
  (pyCatchAll r.1 (fun e => .err ("API error: " ++ pyErrStr e)), r.2)

/-- Body of the myRecipeAgent3 and myRecipeAgent4 get_nutrition_data: the
search stage only; no direct product lookup exists in these variants. -/
def nutritionRaw3 (env : NutritionEnv) (query : String) :
    Except PyErr NOut × List Req :=
  let log1 := [Req.offSearch query]
  match env.searchResp with
  | .exn m => (.error (.requestExc m), log1)
  | .resp status body =>
    match searchStage status body with
    | .error e => (.error e, log1)
    | .ok (some out) => (.ok out, log1)
    | .ok none => (.ok (.err "Could not retrieve nutritional data from the API."), log1)

/-- get_nutrition_data of myRecipeAgent3 agent.py lines 38-55 (and
myRecipeAgent4 lines 54-74): search stage under the same catch-all. -/
def get_nutrition_data_v3 (env : NutritionEnv) (query : String) :
    Except PyErr NOut × List Req :=
  let r := nutritionRaw3 env query
  (pyCatchAll r.1 (fun e => .err ("API error: " ++ pyErrStr e)), r.2)

-- ── Pipeline coordinator: myRecipeAgent3/myRecipeAgent4 agent.py ──────────

/-- The four pipeline stages, named by the slot each one owns.  The
slot-per-stage assignment is the output_key wiring of
src/recipeAgent/myRecipeAgent3/agent.py (recipe_result, nutrition_result,
allergen_result, final_response). -/
inductive Slot where
  | recipe
  | nutrition
  | allergen
  | final
deriving DecidableEq

/-- Shared pipeline state: one optional slot per stage, absent until the
owning stage writes it. -/
structure PipelineState where
  recipe_result : Option String
  nutrition_result : Option String
  allergen_result : Option String
  final_response : Option String
deriving DecidableEq

/-- The fresh state a run starts from. -/
def initState : PipelineState := ⟨none, none, none, none⟩

/-- Writing a stage output into the single slot that stage owns. -/
def writeSlot (st : PipelineState) : Slot → String → PipelineState
  | .recipe, v => { st with recipe_result := some v }
  | .nutrition, v => { st with nutrition_result := some v }
  | .allergen, v => { st with allergen_result := some v }
  | .final, v => { st with final_response := some v }

/-- Terminal status of a run. -/
inductive RunStatus where
  | completed
  | failed
deriving DecidableEq

/-- Result of a run: the stages that executed with the state each one saw,
the last state reached, and the terminal status. -/
structure RunResult where
  trace : List (Slot × PipelineState)
  state : PipelineState
  status : RunStatus
deriving DecidableEq

/-- Modelled from the spec: the SequentialAgent execution loop is code of the
google.adk library, which is not under src (only its configuration is);
following spec sections 4.2-4.3 and 5, stages run strictly one after
another against the shared state, each stage invokes the generation
capability (an oracle returning some output text or none when the
capability fails) on the state it receives and writes its one slot, and a
stage failure aborts the run with status failed, the remaining stages never
running. -/
def runSteps (gen : Slot → PipelineState → Option String) :
    List Slot → PipelineState → RunResult
  | [], st => ⟨[], st, .completed⟩
  | s :: rest, st =>
    match gen s st with
    | none => ⟨[(s, st)], st, .failed⟩
    | some out =>
      let r := runSteps gen rest (writeSlot st s out)
      ⟨(s, st) :: r.trace, r.state, r.status⟩

/-- The sub_agents order of food_assistant_pipeline
(src/recipeAgent/myRecipeAgent3/agent.py lines 169-180 and
src/recipeAgent/myRecipeAgent4/agent.py lines 156-165): finder, analyst,
allergen, formatter. -/
def food_assistant_pipeline : List Slot :=
  [.recipe, .nutrition, .allergen, .final]

/-- One pipeline run from a fresh state against a given generation oracle. -/
def runPipeline (gen : Slot → PipelineState → Option String) : RunResult :=
  runSteps gen food_assistant_pipeline initState

/-- The slot a stage owns, read out of the shared state. -/
def readSlot (st : PipelineState) : Slot → Option String
  | .recipe => st.recipe_result
  | .nutrition => st.nutrition_result
  | .allergen => st.allergen_result
  | .final => st.final_response

/-- Position of a stage in the fixed pipeline order. -/
def slotIdx : Slot → Nat
  | .recipe => 0
  | .nutrition => 1
  | .allergen => 2
  | .final => 3

-- ── Helper lemmas ─────────────────────────────────────────────────────────

/-- Bind on a success reduces to the continuation. -/
theorem ok_bind (a : α) (f : α → Except PyErr β) :
    (Except.ok a >>= f) = f a := rfl

/-- Bind on an exception short-circuits. -/
theorem error_bind (e : PyErr) (f : α → Except PyErr β) :
    ((Except.error e : Except PyErr α) >>= f) = .error e := rfl

-- ── C1 and C2: pipeline ordering and failure short-circuit ────────────────

/-- C1: in every run of the four-stage pipeline, the executed stages form a
prefix of the fixed order finder, analyst, allergen, formatter; the state
the nutrition stage sees has recipe_result written and nothing later; the
state the allergen stage sees has recipe_result and nutrition_result
written and nothing later; and the state the final formatter sees has all
three earlier slots written and final_response still absent, each stage
having written exactly its own slot. -/
theorem pipeline_order_c1 (gen : Slot → PipelineState → Option String) :
    (∃ t, (runPipeline gen).trace.map Prod.fst ++ t = food_assistant_pipeline) ∧
    (∀ st, (Slot.nutrition, st) ∈ (runPipeline gen).trace →
      st.recipe_result.isSome ∧ st.nutrition_result = none ∧
      st.allergen_result = none ∧ st.final_response = none) ∧
    (∀ st, (Slot.allergen, st) ∈ (runPipeline gen).trace →
      st.recipe_result.isSome ∧ st.nutrition_result.isSome ∧
      st.allergen_result = none ∧ st.final_response = none) ∧
    (∀ st, (Slot.final, st) ∈ (runPipeline gen).trace →
      st.recipe_result.isSome ∧ st.nutrition_result.isSome ∧
      st.allergen_result.isSome ∧ st.final_response = none) := by
  rcases h1 : gen Slot.recipe initState with _ | v1
  · refine ⟨⟨[Slot.nutrition, Slot.allergen, Slot.final], ?_⟩, ?_, ?_, ?_⟩ <;>
      simp_all [runPipeline, food_assistant_pipeline, runSteps, writeSlot, initState]
  · rcases h2 : gen Slot.nutrition (writeSlot initState Slot.recipe v1) with _ | v2
    · refine ⟨⟨[Slot.allergen, Slot.final], ?_⟩, ?_, ?_, ?_⟩ <;>
        simp_all [runPipeline, food_assistant_pipeline, runSteps, writeSlot, initState]
    · rcases h3 : gen Slot.allergen
          (writeSlot (writeSlot initState Slot.recipe v1) Slot.nutrition v2) with _ | v3
      · refine ⟨⟨[Slot.final], ?_⟩, ?_, ?_, ?_⟩ <;>
          simp_all [runPipeline, food_assistant_pipeline, runSteps, writeSlot, initState]
      · rcases h4 : gen Slot.final
            (writeSlot (writeSlot (writeSlot initState Slot.recipe v1)
              Slot.nutrition v2) Slot.allergen v3) with _ | v4 <;>
        · refine ⟨⟨[], ?_⟩, ?_, ?_, ?_⟩ <;>
            simp_all [runPipeline, food_assistant_pipeline, runSteps, writeSlot, initState]

/-- Oracle on which every stage succeeds. -/
def genAll : Slot → PipelineState → Option String := fun _ _ => some "out"

/-- Witness for C1: on a concrete all-success run the nutrition stage
executes and the state it sees has recipe_result written. -/
theorem pipeline_order_c1_witness :
    ((Slot.nutrition, writeSlot initState Slot.recipe "out") ∈
      (runPipeline genAll).trace) ∧
    (writeSlot initState Slot.recipe "out").recipe_result.isSome := by
  refine ⟨by decide, ((pipeline_order_c1 genAll).2.1 _ (by decide)).1⟩

/-- C2: for every pipeline run in which a step fails — any oracle, and any
executed stage whose generation call returned no output — the coordinator
aborts without running the remaining stages: the run terminates with
status failed, the executed stages are exactly the fixed order cut off at
the failing stage, and the slot of the failing stage and of every later
stage is never written, so no partial success is reported. -/
theorem pipeline_shortcircuit_c2 (gen : Slot → PipelineState → Option String)
    (s : Slot) (st : PipelineState)
    (hmem : (s, st) ∈ (runPipeline gen).trace)
    (hfail : gen s st = none) :
    (runPipeline gen).status = RunStatus.failed ∧
    (runPipeline gen).trace.map Prod.fst =
      food_assistant_pipeline.take (slotIdx s + 1) ∧
    (∀ s2, slotIdx s ≤ slotIdx s2 →
      readSlot (runPipeline gen).state s2 = none) := by
  rcases h1 : gen Slot.recipe initState with _ | v1
  · have hrun : runPipeline gen =
        ⟨[(Slot.recipe, initState)], initState, .failed⟩ := by
      simp only [runPipeline, food_assistant_pipeline, runSteps, h1]
    rw [hrun] at hmem ⊢
    simp only [List.mem_singleton, Prod.mk.injEq] at hmem
    obtain ⟨hs, -⟩ := hmem
    subst hs
    refine ⟨rfl, rfl, ?_⟩
    intro s2 _
    cases s2 <;> rfl
  · rcases h2 : gen Slot.nutrition (writeSlot initState Slot.recipe v1) with _ | v2
    · have hrun : runPipeline gen =
          ⟨[(Slot.recipe, initState),
            (Slot.nutrition, writeSlot initState Slot.recipe v1)],
           writeSlot initState Slot.recipe v1, .failed⟩ := by
        simp only [runPipeline, food_assistant_pipeline, runSteps, h1, h2]
      rw [hrun] at hmem ⊢
      simp only [List.mem_cons, List.not_mem_nil, Prod.mk.injEq, or_false] at hmem
      rcases hmem with ⟨hs, hst⟩ | ⟨hs, -⟩
      · subst hs; subst hst
        rw [h1] at hfail
        exact Option.noConfusion hfail
      · subst hs
        refine ⟨rfl, rfl, ?_⟩
        intro s2 hle
        cases s2 with
        | recipe => exact absurd hle (by decide)
        | nutrition => rfl
        | allergen => rfl
        | final => rfl
    · rcases h3 : gen Slot.allergen
          (writeSlot (writeSlot initState Slot.recipe v1) Slot.nutrition v2)
          with _ | v3
      · have hrun : runPipeline gen =
            ⟨[(Slot.recipe, initState),
              (Slot.nutrition, writeSlot initState Slot.recipe v1),
              (Slot.allergen,
                writeSlot (writeSlot initState Slot.recipe v1) Slot.nutrition v2)],
             writeSlot (writeSlot initState Slot.recipe v1) Slot.nutrition v2,
             .failed⟩ := by
          simp only [runPipeline, food_assistant_pipeline, runSteps, h1, h2, h3]
        rw [hrun] at hmem ⊢
        simp only [List.mem_cons, List.not_mem_nil, Prod.mk.injEq, or_false] at hmem
        rcases hmem with ⟨hs, hst⟩ | ⟨hs, hst⟩ | ⟨hs, -⟩
        · subst hs; subst hst
          rw [h1] at hfail
          exact Option.noConfusion hfail
        · subst hs; subst hst
          rw [h2] at hfail
          exact Option.noConfusion hfail
        · subst hs
          refine ⟨rfl, rfl, ?_⟩
          intro s2 hle
          cases s2 with
          | recipe => exact absurd hle (by decide)
          | nutrition => exact absurd hle (by decide)
          | allergen => rfl
          | final => rfl
      · rcases h4 : gen Slot.final
            (writeSlot (writeSlot (writeSlot initState Slot.recipe v1)
              Slot.nutrition v2) Slot.allergen v3) with _ | v4
        · have hrun : runPipeline gen =
              ⟨[(Slot.recipe, initState),
                (Slot.nutrition, writeSlot initState Slot.recipe v1),
                (Slot.allergen,
                  writeSlot (writeSlot initState Slot.recipe v1) Slot.nutrition v2),
                (Slot.final,
                  writeSlot (writeSlot (writeSlot initState Slot.recipe v1)
                    Slot.nutrition v2) Slot.allergen v3)],
               writeSlot (writeSlot (writeSlot initState Slot.recipe v1)
                 Slot.nutrition v2) Slot.allergen v3,
               .failed⟩ := by
            simp only [runPipeline, food_assistant_pipeline, runSteps, h1, h2, h3, h4]
          rw [hrun] at hmem ⊢
          simp only [List.mem_cons, List.not_mem_nil, Prod.mk.injEq, or_false] at hmem
          rcases hmem with ⟨hs, hst⟩ | ⟨hs, hst⟩ | ⟨hs, hst⟩ | ⟨hs, -⟩
          · subst hs; subst hst
            rw [h1] at hfail
            exact Option.noConfusion hfail
          · subst hs; subst hst
            rw [h2] at hfail
            exact Option.noConfusion hfail
          · subst hs; subst hst
            rw [h3] at hfail
            exact Option.noConfusion hfail
          · subst hs
            refine ⟨rfl, rfl, ?_⟩
            intro s2 hle
            cases s2 with
            | recipe => exact absurd hle (by decide)
            | nutrition => exact absurd hle (by decide)
            | allergen => exact absurd hle (by decide)
            | final => rfl
        · have hrun : runPipeline gen =
              ⟨[(Slot.recipe, initState),
                (Slot.nutrition, writeSlot initState Slot.recipe v1),
                (Slot.allergen,
                  writeSlot (writeSlot initState Slot.recipe v1) Slot.nutrition v2),
                (Slot.final,
                  writeSlot (writeSlot (writeSlot initState Slot.recipe v1)
                    Slot.nutrition v2) Slot.allergen v3)],
               writeSlot (writeSlot (writeSlot (writeSlot initState Slot.recipe v1)
                 Slot.nutrition v2) Slot.allergen v3) Slot.final v4,
               .completed⟩ := by
            simp only [runPipeline, food_assistant_pipeline, runSteps, h1, h2, h3, h4]
          rw [hrun] at hmem
          simp only [List.mem_cons, List.not_mem_nil, Prod.mk.injEq, or_false] at hmem
          rcases hmem with ⟨hs, hst⟩ | ⟨hs, hst⟩ | ⟨hs, hst⟩ | ⟨hs, hst⟩ <;>
            (subst hs; subst hst)
          · rw [h1] at hfail; exact Option.noConfusion hfail
          · rw [h2] at hfail; exact Option.noConfusion hfail
          · rw [h3] at hfail; exact Option.noConfusion hfail
          · rw [h4] at hfail; exact Option.noConfusion hfail

/-- Oracle on which the nutrition stage fails. -/
def genFail2 : Slot → PipelineState → Option String :=
  fun s _ => if s = Slot.recipe then some "recipe text" else none

/-- Witness for C2 at a concrete oracle whose nutrition stage fails: the run
reports failed, the executed stages stop at the nutrition stage, and the
allergen and final slots are unwritten. -/
theorem pipeline_shortcircuit_c2_witness :
    (runPipeline genFail2).status = RunStatus.failed ∧
    (runPipeline genFail2).trace.map Prod.fst =
      food_assistant_pipeline.take (slotIdx Slot.nutrition + 1) ∧
    readSlot (runPipeline genFail2).state Slot.allergen = none ∧
    readSlot (runPipeline genFail2).state Slot.final = none := by
  have h := pipeline_shortcircuit_c2 genFail2 Slot.nutrition
    (writeSlot initState Slot.recipe "recipe text") (by decide) rfl
  exact ⟨h.1, h.2.1, h.2.2 Slot.allergen (by decide), h.2.2 Slot.final (by decide)⟩

-- ── C3: adapters and exceptions ───────────────────────────────────────────

/-- A RequestException handler never lets a transport exception escape, and
whatever does escape it is not a transport exception. -/
theorem pyCatchRequest_no_transport (x : Except PyErr α) (h : String → α)
    (e : PyErr) (hx : pyCatchRequest x h = .error e) : e.isTransport = false := by
  cases x with
  | ok v => simp [pyCatchRequest] at hx
  | error e2 =>
    cases e2 <;> simp [pyCatchRequest] at hx <;> (subst hx; rfl)

/-- Any exception escaping geocode_city is not a transport exception. -/
theorem geocode_city_no_transport (env : WeatherEnv) (c : String) (e : PyErr)
    (hx : geocode_city env c = .error e) : e.isTransport = false :=
  pyCatchRequest_no_transport _ _ _ hx

/-- Any exception escaping get_weather is not a transport exception. -/
theorem get_weather_no_transport (env : WeatherEnv) (c : String) (e : PyErr)
    (hx : get_weather env c = .error e) : e.isTransport = false := by
  unfold get_weather at hx
  cases hg : geocode_city env c with
  | error e2 =>
    rw [hg] at hx
    simp only [Except.error.injEq] at hx
    subst hx
    exact geocode_city_no_transport env c e2 hg
  | ok g =>
    cases g with
    | err m => rw [hg] at hx; simp at hx
    | ok f => rw [hg] at hx; exact pyCatchRequest_no_transport _ _ _ hx

/-- Any exception escaping get_current_time is not a transport exception. -/
theorem get_current_time_no_transport (env : WeatherEnv) (c : String) (e : PyErr)
    (hx : (get_current_time env c).1 = .error e) : e.isTransport = false := by
  unfold get_current_time at hx
  cases hg : geocode_city env c with
  | error e2 =>
    rw [hg] at hx
    simp only [Except.error.injEq] at hx
    subst hx
    exact geocode_city_no_transport env c e2 hg
  | ok g =>
    cases g with
    | err m => rw [hg] at hx; simp at hx
    | ok f => rw [hg] at hx; simp at hx

/-- C3 amended: the three adapters whose bodies sit under a catch-all except
(get_recipe_details and both get_nutrition_data variants) return a value
for every environment and query and never raise; geocode_city, get_weather
and get_current_time never let a transport exception escape (every
RequestException is absorbed into a failure value), but they can raise
non-transport exceptions on responses of unexpected shape, as the
counterexample exhibits. -/
theorem adapters_noraise_c3 :
    (∀ env q, ∃ v, get_recipe_details env q = Except.ok v) ∧
    (∀ env q, ∃ v, (get_nutrition_data env q).1 = Except.ok v) ∧
    (∀ env q, ∃ v, (get_nutrition_data_v3 env q).1 = Except.ok v) ∧
    (∀ env c e, geocode_city env c = Except.error e → e.isTransport = false) ∧
    (∀ env c e, get_weather env c = Except.error e → e.isTransport = false) ∧
    (∀ env c e, (get_current_time env c).1 = Except.error e → e.isTransport = false) :=
  ⟨fun _ _ => ⟨_, rfl⟩, fun _ _ => ⟨_, rfl⟩, fun _ _ => ⟨_, rfl⟩,
   geocode_city_no_transport, get_weather_no_transport, get_current_time_no_transport⟩

/-- A geocoding response whose body is a JSON list, not an object. -/
def envGeoArr : WeatherEnv :=
  ⟨.resp 200 (.arr []), .exn "unused", .exn "unused"⟩

/-- Witness for C3: the recipe adapter returns a value on a concrete empty
store, and the concrete non-dict geocoding body makes geocode_city raise an
AttributeError, which is not a transport exception. -/
theorem adapters_noraise_c3_witness :
    (∃ v, get_recipe_details (DbEnv.table []) "pancakes" = Except.ok v) ∧
    (PyErr.attributeError "object has no attribute get: results").isTransport = false :=
  ⟨adapters_noraise_c3.1 (DbEnv.table []) "pancakes",
   adapters_noraise_c3.2.2.2.1 envGeoArr "X" _ rfl⟩

/-- A successful geocoding response for Rockville. -/
def geoOkBody : JVal :=
  .obj [("results", .arr [.obj
    [("name", .str "Rockville"), ("latitude", .num 39),
     ("longitude", .num (-77)), ("timezone", .str "America/New_York")]])]

/-- A 200 forecast response whose current_weather object has no temperature
field. -/
def envNoTemp : WeatherEnv :=
  ⟨.resp 200 geoOkBody, .resp 200 (.obj [("current_weather", .obj [])]),
   .exn "unused"⟩

/-- Counterexample for C3 as stated: on a successful forecast response whose
current-conditions object lacks the temperature field, get_weather raises a
TypeError out of the adapter (the source formats tc with .1f even when tc
is None) instead of returning a failure value. -/
theorem adapters_noraise_c3_counterexample :
    get_weather envNoTemp "Rockville" =
      Except.error (PyErr.typeError
        "unsupported format string passed to NoneType.__format__") := rfl

-- ── C7: empty geocoding results and pass-through ──────────────────────────

/-- C7: when the geocoding response is a 200 whose results entry is falsy
(absent, null or an empty list), geocode_city returns a not-found failure
whose message contains the queried name, and get_weather for the same query
returns a failure with exactly the same message, unchanged. -/
theorem geocode_notfound_passthrough_c7 (env : WeatherEnv) (name : String)
    (flds : List (String × JVal))
    (hresp : env.geocodeResp = .resp 200 (.obj flds))
    (hempty : pyTruthy (objGetD flds "results" .null) = false) :
    geocode_city env name =
      .ok (.err ("City \x27" ++ name ++ "\x27 not found.")) ∧
    get_weather env name =
      .ok (.err ("City \x27" ++ name ++ "\x27 not found.")) ∧
    ∃ pre suf, ("City \x27" ++ name ++ "\x27 not found.") = pre ++ name ++ suf := by
  have hg : geocode_city env name =
      .ok (.err ("City \x27" ++ name ++ "\x27 not found.")) := by
    simp [geocode_city, hresp, raiseForStatus, pyGet, hempty, ok_bind,
      pyCatchRequest, pure, Except.pure]
  refine ⟨hg, ?_, "City \x27", "\x27 not found.", rfl⟩
  simp [get_weather, hg]

/-- A geocoding response listing no results. -/
def envEmptyGeo : WeatherEnv :=
  ⟨.resp 200 (.obj [("results", .arr [])]), .exn "unused", .exn "unused"⟩

/-- Witness for C7 at the concrete query of the spec scenario. -/
theorem geocode_notfound_passthrough_c7_witness :
    get_weather envEmptyGeo "Nonexistent City XYZ" =
      .ok (.err ("City \x27" ++ "Nonexistent City XYZ" ++ "\x27 not found.")) :=
  (geocode_notfound_passthrough_c7 envEmptyGeo "Nonexistent City XYZ"
    [("results", JVal.arr [])] rfl rfl).2.1

-- ── C10: geocoding tolerates missing fields on the first result ───────────

/-- C10: a 200 geocoding response with at least one result makes
geocode_city return a success outcome whose name, latitude, longitude and
timezone fields are each the corresponding field of the first result, None
when absent, and get_current_time then issues the time-service request
carrying that possibly-absent timezone value. -/
theorem geocode_missing_fields_c10 (env : WeatherEnv) (name : String)
    (flds rf : List (String × JVal)) (rest : List JVal)
    (hresp : env.geocodeResp = .resp 200 (.obj flds))
    (hres : objLookup flds "results" = some (.arr (JVal.obj rf :: rest))) :
    geocode_city env name = .ok (.ok
      { name := objGetD rf "name" .null,
        latitude := objGetD rf "latitude" .null,
        longitude := objGetD rf "longitude" .null,
        timezone := objGetD rf "timezone" .null }) ∧
    Req.timeapi (objGetD rf "timezone" .null) ∈ (get_current_time env name).2 := by
  have hg : geocode_city env name = .ok (.ok
      { name := objGetD rf "name" .null,
        latitude := objGetD rf "latitude" .null,
        longitude := objGetD rf "longitude" .null,
        timezone := objGetD rf "timezone" .null }) := by
    simp [geocode_city, hresp, raiseForStatus, pyGet, objGetD, hres, ok_bind,
      pyTruthy, pyIndex, pyCatchRequest, pure, Except.pure]
  refine ⟨hg, ?_⟩
  simp [get_current_time, hg]

/-- A geocoding response whose single result has none of the four fields. -/
def envBareGeo : WeatherEnv :=
  ⟨.resp 200 (.obj [("results", .arr [.obj []])]), .exn "unused",
   .resp 200 (.obj [])⟩

/-- Witness for C10: with a first result missing every field, geocode_city
still succeeds with all-None fields and the TimeAPI request goes out with a
None timezone. -/
theorem geocode_missing_fields_c10_witness :
    geocode_city envBareGeo "X" =
      .ok (.ok { name := .null, latitude := .null, longitude := .null,
                 timezone := .null }) ∧
    Req.timeapi .null ∈ (get_current_time envBareGeo "X").2 :=
  geocode_missing_fields_c10 envBareGeo "X" [("results", JVal.arr [JVal.obj []])]
    [] [] rfl rfl

-- ── C6: humidity alignment ────────────────────────────────────────────────

/-- C6 amended: when the current-conditions timestamp first occurs at index
i of the hourly timestamp series and the humidity series has an entry at i,
the selection takes the humidity at that index; when the timestamp is
absent and the humidity series is non-empty, it takes the value at index 0;
when the timestamp is absent and the humidity series is empty, humidity is
reported as unknown (None).  When the timestamp occurs at an index beyond
the end of the humidity series, an IndexError propagates instead (the
counterexample), which is the one case the claim as stated misses. -/
theorem humidity_selection_c6 :
    (∀ (ts hs : List JVal) (tnow : JVal) (i : Nat) (hlt : i < hs.length),
      ts.findIdx? (fun t => jvalBeq t tnow) = some i →
      selectHumidity (.arr ts) (.arr hs) tnow = .ok (hs.get ⟨i, hlt⟩)) ∧
    (∀ (ts hs : List JVal) (tnow : JVal),
      ts.findIdx? (fun t => jvalBeq t tnow) = none → hs ≠ [] →
      selectHumidity (.arr ts) (.arr hs) tnow = .ok (hs.getD 0 .null)) ∧
    (∀ (ts : List JVal) (tnow : JVal),
      ts.findIdx? (fun t => jvalBeq t tnow) = none →
      selectHumidity (.arr ts) (.arr []) tnow = .ok .null) := by
  refine ⟨?_, ?_, ?_⟩
  · intro ts hs tnow i hlt hfind
    simp [selectHumidity, hfind, pyIndex, List.getElem?_eq_getElem hlt]
  · intro ts hs tnow hfind hne
    cases hs with
    | nil => exact absurd rfl hne
    | cons a t => simp [selectHumidity, hfind, pyTruthy, pyIndex, List.getD]
  · intro ts tnow hfind
    simp [selectHumidity, hfind, pyTruthy]

/-- Witness for C6 on concrete series: the timestamp matches at index 0 and
the humidity there is selected. -/
theorem humidity_selection_c6_witness :
    selectHumidity (.arr [.str "a"]) (.arr [.num 80, .num 90]) (.str "a") =
      .ok (.num 80) :=
  humidity_selection_c6.1 [.str "a"] [.num 80, .num 90] (.str "a") 0
    (by decide) rfl

/-- Counterexample for C6 as stated: the current-conditions timestamp occurs
in the hourly series (at index 0) but the humidity series is empty, so the
selection raises an IndexError rather than taking a value or reporting
unknown. -/
theorem humidity_selection_c6_counterexample :
    selectHumidity (.arr [.str "t0"]) (.arr []) (.str "t0") =
      .error .indexError ∧
    [JVal.str "t0"].findIdx? (fun t => jvalBeq t (.str "t0")) = some 0 :=
  ⟨rfl, rfl⟩

-- ── C8: time adapter ──────────────────────────────────────────────────────

/-- C8: after a successful geocode, get_current_time queries the time
service; on a 200 response carrying a parseable dateTime it returns the
timestamp formatted YYYY-MM-DD HH:MM:SS followed by the timezone in
parentheses; a transport exception or an error status yields a failure
whose message says Time lookup failed; an unparseable timestamp (the
conjunct hypothesizes a dateTime whose first four characters are not all
digits, a string no interpreter version parses, so the model never counts a
real success as a failure) yields a failure whose message says Time
parsing failed. -/
theorem time_adapter_c8 :
    (∀ env city f body iso dt,
      geocode_city env city = .ok (.ok f) →
      env.timeResp = .resp 200 body →
      pyGet body "dateTime" = .ok (.str iso) → iso ≠ "" →
      parseIso iso = some dt →
      (get_current_time env city).1 = .ok (.success
        (pad4 dt.year ++ "-" ++ pad2 dt.month ++ "-" ++ pad2 dt.day ++ " " ++
         pad2 dt.hour ++ ":" ++ pad2 dt.minute ++ ":" ++ pad2 dt.second ++
         " (" ++ pyStr f.timezone ++ ")"))) ∧
    (∀ env city f m,
      geocode_city env city = .ok (.ok f) →
      env.timeResp = .exn m →
      (get_current_time env city).1 = .ok (.err ("Time lookup failed: " ++ m))) ∧
    (∀ env city f status body,
      geocode_city env city = .ok (.ok f) →
      env.timeResp = .resp status body → 400 ≤ status →
      ∃ rest, (get_current_time env city).1 =
        .ok (.err ("Time lookup failed: " ++ rest))) ∧
    (∀ env city f body iso,
      geocode_city env city = .ok (.ok f) →
      env.timeResp = .resp 200 body →
      pyGet body "dateTime" = .ok (.str iso) → iso ≠ "" →
      (iso.data.take 4).all Char.isDigit = false →
      ∃ rest, (get_current_time env city).1 =
        .ok (.err ("Time parsing failed: " ++ rest))) := by
  refine ⟨?_, ?_, ?_, ?_⟩
  · intro env city f body iso dt hg ht hdt hne hparse
    have hie : iso.isEmpty = false := by
      cases h : iso.isEmpty with
      | false => rfl
      | true => exact absurd ((String.isEmpty_iff iso).mp h) hne
    have htr : pyTruthy (.str iso) = true := by simp [pyTruthy, hie]
    simp [get_current_time, hg, ht, raiseForStatus, hdt, htr, ok_bind,
      pyFromIso, hparse, pyCatch2, fmtDT, pure, Except.pure]
  · intro env city f m hg ht
    simp [get_current_time, hg, ht, pyCatch2]
  · intro env city f status body hg ht hst
    refine ⟨"HTTP error " ++ toString status, ?_⟩
    simp [get_current_time, hg, ht, raiseForStatus, hst, error_bind, pyCatch2]
  · intro env city f body iso hg ht hdt hne hbad
    have hparse : parseIso iso = none := parseIso_none_of_bad_year iso hbad
    have hie : iso.isEmpty = false := by
      cases h : iso.isEmpty with
      | false => rfl
      | true => exact absurd ((String.isEmpty_iff iso).mp h) hne
    have htr : pyTruthy (.str iso) = true := by simp [pyTruthy, hie]
    refine ⟨"Invalid isoformat string: " ++ iso, ?_⟩
    simp [get_current_time, hg, ht, raiseForStatus, hdt, htr, ok_bind,
      error_bind, pyFromIso, hparse, pyCatch2, pyErrStr, pure, Except.pure]

/-- A time-service response with a well-formed ISO timestamp, behind a
successful geocode. -/
def envTimeOk : WeatherEnv :=
  ⟨.resp 200 geoOkBody, .exn "unused",
   .resp 200 (.obj [("dateTime", .str "2024-05-01T12:30:45")])⟩

/-- The geocode result fields of geoOkBody. -/
def fRock : GeoFields :=
  { name := .str "Rockville", latitude := .num 39, longitude := .num (-77),
    timezone := .str "America/New_York" }

/-- A time-service response carrying a dateTime no interpreter parses. -/
def envTimeBad : WeatherEnv :=
  ⟨.resp 200 geoOkBody, .exn "unused",
   .resp 200 (.obj [("dateTime", .str "not-a-timestamp")])⟩

/-- Witness for C8 on a concrete timestamp and timezone, and on a concrete
unparseable timestamp. -/
theorem time_adapter_c8_witness :
    (get_current_time envTimeOk "Rockville").1 = .ok (.success
      (pad4 2024 ++ "-" ++ pad2 5 ++ "-" ++ pad2 1 ++ " " ++
       pad2 12 ++ ":" ++ pad2 30 ++ ":" ++ pad2 45 ++
       " (" ++ pyStr (.str "America/New_York") ++ ")")) ∧
    (∃ rest, (get_current_time envTimeBad "Rockville").1 =
      .ok (.err ("Time parsing failed: " ++ rest))) :=
  ⟨time_adapter_c8.1 envTimeOk "Rockville" fRock
    (.obj [("dateTime", .str "2024-05-01T12:30:45")])
    "2024-05-01T12:30:45" ⟨2024, 5, 1, 12, 30, 45⟩ rfl rfl rfl
    (by decide) rfl,
   time_adapter_c8.2.2.2 envTimeBad "Rockville" fRock
    (.obj [("dateTime", .str "not-a-timestamp")])
    "not-a-timestamp" rfl rfl rfl (by decide) (by decide)⟩

-- ── C9: weather report composition ────────────────────────────────────────

/-- C9: the weather-code table is a pure map sending 0 to Clear sky, 95 to
Thunderstorm and every unlisted code to Unknown; the conversion is
F = C * 9/5 + 32, sending 0 to 32.0 and 100 to 212.0 at one decimal place;
and the report produced by a successful forecast is the single sentence
carrying the place name, the description, both temperatures at one decimal
place, the humidity and the wind speed, which get_weather returns as its
success report. -/
theorem weather_report_c9 :
    weatherDesc (.num 0) = .ok "Clear sky" ∧
    weatherDesc (.num 95) = .ok "Thunderstorm" ∧
    (∀ q : PyNum, (∀ p ∈ weather_map, PyNum.beq p.1 q = false) →
      weatherDesc (.num q) = .ok "Unknown") ∧
    (PyNum.beq (c2f 0) 32 = true ∧ PyNum.beq (c2f 100) 212 = true ∧
      fmtFixed1 (c2f 0) = "32.0" ∧ fmtFixed1 (c2f 100) = "212.0") ∧
    (∀ name cwf times hums tc hum desc,
      objGetD cwf "temperature" .null = .num tc →
      selectHumidity times hums (objGetD cwf "time" .null) = .ok hum →
      weatherDesc (objGetD cwf "weathercode" .null) = .ok desc →
      composeReport name (.obj [("current_weather", .obj cwf),
        ("hourly", .obj [("time", times), ("relativehumidity_2m", hums)])]) =
        .ok ("The weather in " ++ pyStr name ++ " is " ++ desc ++ " with " ++
          fmtFixed1 tc ++ "°C (" ++ fmtFixed1 (c2f tc) ++ "°F), humidity " ++
          pyStr hum ++ "% and wind " ++
          pyStr (objGetD cwf "windspeed" (.str "N/A")) ++ " km/h.")) ∧
    (∀ env city f body r,
      geocode_city env city = .ok (.ok f) →
      env.forecastResp = .resp 200 body →
      composeReport f.name body = .ok r →
      get_weather env city = .ok (.success r)) := by
  refine ⟨rfl, rfl, ?_, ⟨by decide, by decide, by decide, by decide⟩, ?_, ?_⟩
  · intro q hq
    have hfind : weather_map.find? (fun p => PyNum.beq p.1 q) = none :=
      List.find?_eq_none.mpr (fun x hx => by simp [hq x hx])
    simp [weatherDesc, pyNumVal, hfind]
  · intro name cwf times hums tc hum desc h1 h2 h3
    have e1 : pyGetD (.obj [("current_weather", .obj cwf),
        ("hourly", .obj [("time", times), ("relativehumidity_2m", hums)])])
        "current_weather" (.obj []) = .ok (.obj cwf) := rfl
    have e2 : pyGetD (.obj [("current_weather", .obj cwf),
        ("hourly", .obj [("time", times), ("relativehumidity_2m", hums)])])
        "hourly" (.obj []) =
        .ok (.obj [("time", times), ("relativehumidity_2m", hums)]) := rfl
    have e3 : pyGetD (.obj [("time", times), ("relativehumidity_2m", hums)])
        "time" (.arr []) = .ok times := rfl
    have e4 : pyGetD (.obj [("time", times), ("relativehumidity_2m", hums)])
        "relativehumidity_2m" (.arr []) = .ok hums := rfl
    have e5 : pyGet (.obj cwf) "time" = .ok (objGetD cwf "time" .null) := rfl
    have e6 : pyGet (.obj cwf) "weathercode" =
        .ok (objGetD cwf "weathercode" .null) := rfl
    have e7 : pyGet (.obj cwf) "temperature" =
        .ok (objGetD cwf "temperature" .null) := rfl
    have e8 : pyGetD (.obj cwf) "windspeed" (.str "N/A") =
        .ok (objGetD cwf "windspeed" (.str "N/A")) := rfl
    simp [composeReport, e1, e2, e3, e4, e5, e6, e7, e8, h1, h2, h3,
      ok_bind, pyNumVal, pyFormatFixed1, pure, Except.pure]
  · intro env city f body r hg hf hc
    simp [get_weather, hg, hf, raiseForStatus, hc, ok_bind, pyCatchRequest,
      pure, Except.pure]

/-- A full, well-formed forecast response. -/
def forecastC9 : JVal :=
  .obj [("current_weather", .obj
          [("time", .str "2024-05-01T12:00"), ("temperature", .num 20),
           ("weathercode", .num 0), ("windspeed", .num 10)]),
        ("hourly", .obj
          [("time", .arr [.str "2024-05-01T12:00"]),
           ("relativehumidity_2m", .arr [.num 50])])]

/-- Environment for the C9 witness run. -/
def envC9 : WeatherEnv := ⟨.resp 200 geoOkBody, .resp 200 forecastC9, .exn "unused"⟩

/-- Witness for C9: the concrete end-to-end report sentence. -/
theorem weather_report_c9_witness :
    get_weather envC9 "Rockville" = .ok (.success
      ("The weather in Rockville is Clear sky with 20.0°C (68.0°F), humidity 50% and wind 10 km/h.")) :=
  weather_report_c9.2.2.2.2.2 envC9 "Rockville" fRock forecastC9
    ("The weather in Rockville is Clear sky with 20.0°C (68.0°F), humidity 50% and wind 10 km/h.")
    rfl rfl rfl

-- ── C4: nutrition adapter staging ─────────────────────────────────────────

/-- C4 amended: in every variant, a 200 search response whose products list
has at least one entry yields that first product's name, nutrient map,
category string and ingredient text, each defaulted to N/A when the key is
absent.  In the myRecipeAgent2 variant only: when the search response
arrives but yields no product (falsy products list, or a non-200 status),
the direct identifier lookup is attempted before any failure is returned,
and a 200 identifier response with status 1 then yields the product's
fields; but a transport exception during the search skips the fallback and
returns an API-error failure immediately.  The myRecipeAgent3 and
myRecipeAgent4 variant never issues the identifier request at all. -/
theorem nutrition_adapter_c4 :
    (∀ env q flds pf rest,
      env.searchResp = .resp 200 (.obj flds) →
      objLookup flds "products" = some (.arr (JVal.obj pf :: rest)) →
      (get_nutrition_data env q).1 = .ok (productFields pf) ∧
      (get_nutrition_data_v3 env q).1 = .ok (productFields pf)) ∧
    (∀ env q flds,
      env.searchResp = .resp 200 (.obj flds) →
      pyTruthy (objGetD flds "products" .null) = false →
      (get_nutrition_data env q).2 = [Req.offSearch q, Req.offProduct q]) ∧
    (∀ env q status body,
      env.searchResp = .resp status body → status ≠ 200 →
      (get_nutrition_data env q).2 = [Req.offSearch q, Req.offProduct q]) ∧
    (∀ env q flds flds2 pf,
      env.searchResp = .resp 200 (.obj flds) →
      pyTruthy (objGetD flds "products" .null) = false →
      env.productResp = .resp 200 (.obj flds2) →
      objLookup flds2 "status" = some (.num 1) →
      objLookup flds2 "product" = some (.obj pf) →
      (get_nutrition_data env q).1 = .ok (productFields pf)) ∧
    (∀ env q m,
      env.searchResp = .exn m →
      get_nutrition_data env q =
        (.ok (.err ("API error: " ++ m)), [Req.offSearch q])) ∧
    (∀ env q, (get_nutrition_data_v3 env q).2 = [Req.offSearch q]) := by
  refine ⟨?_, ?_, ?_, ?_, ?_, ?_⟩
  · intro env q flds pf rest hresp hp
    have hS : searchStage 200 (.obj flds) = .ok (some (productFields pf)) := by
      simp [searchStage, pyGet, pyItem, objGetD, hp, ok_bind, pyTruthy,
        pyLen, pyIndex, pure, Except.pure]
    exact ⟨by simp [get_nutrition_data, nutritionRaw, hresp, hS, pyCatchAll],
      by simp [get_nutrition_data_v3, nutritionRaw3, hresp, hS, pyCatchAll]⟩
  · intro env q flds hresp htr
    have hS : searchStage 200 (.obj flds) = .ok none := by
      simp [searchStage, pyGet, htr, ok_bind, pure, Except.pure]
    simp only [get_nutrition_data, nutritionRaw, hresp, hS]
    rcases hp2 : env.productResp with m2 | ⟨st2, b2⟩
    · simp
    · rcases hps : productStage st2 b2 with e | o
      · simp [hps]
      · cases o <;> simp [hps]
  · intro env q status body hresp hst
    have h200 : (status == 200) = false := by simpa using hst
    have hS : searchStage status body = .ok none := by
      simp [searchStage, h200, pure, Except.pure]
    simp only [get_nutrition_data, nutritionRaw, hresp, hS]
    rcases hp2 : env.productResp with m2 | ⟨st2, b2⟩
    · simp
    · rcases hps : productStage st2 b2 with e | o
      · simp [hps]
      · cases o <;> simp [hps]
  · intro env q flds flds2 pf hresp htr hp2 hst hprod
    have hS : searchStage 200 (.obj flds) = .ok none := by
      simp [searchStage, pyGet, htr, ok_bind, pure, Except.pure]
    have hP : productStage 200 (.obj flds2) = .ok (some (productFields pf)) := by
      simp [productStage, pyGet, pyItem, objGetD, hst, hprod, ok_bind,
        jvalBeq, PyNum.beq, pure, Except.pure]
    simp [get_nutrition_data, nutritionRaw, hresp, hS, hp2, hP, pyCatchAll]
  · intro env q m hresp
    simp [get_nutrition_data, nutritionRaw, hresp, pyCatchAll, pyErrStr]
  · intro env q
    simp only [get_nutrition_data_v3, nutritionRaw3]
    rcases hresp : env.searchResp with m | ⟨st, b⟩
    · simp
    · rcases hS : searchStage st b with e | o
      · simp [hS]
      · cases o <;> simp [hS]

/-- A search response with one product, behind a product endpoint that is
never reached. -/
def envNutOk : NutritionEnv :=
  ⟨.resp 200 (.obj [("products", .arr [.obj [("product_name", .str "Oats")]])]),
   .exn "unused"⟩

/-- A search call that raises a transport exception. -/
def envNutExn : NutritionEnv := ⟨.exn "timeout", .exn "unused"⟩

/-- Witness for C4: the first-product fields on a concrete search response,
and the transport-exception case returning immediately without the
fallback request. -/
theorem nutrition_adapter_c4_witness :
    (get_nutrition_data envNutOk "oats").1 =
      .ok (productFields [("product_name", .str "Oats")]) ∧
    get_nutrition_data envNutExn "oats" =
      (.ok (.err ("API error: " ++ "timeout")), [Req.offSearch "oats"]) :=
  ⟨(nutrition_adapter_c4.1 envNutOk "oats"
      [("products", JVal.arr [JVal.obj [("product_name", JVal.str "Oats")]])]
      [("product_name", JVal.str "Oats")] [] rfl rfl).1,
   nutrition_adapter_c4.2.2.2.2.1 envNutExn "oats" "timeout" rfl⟩

/-- A search yielding an empty products list, while the identifier endpoint
would have answered with a full product. -/
def envN4 : NutritionEnv :=
  ⟨.resp 200 (.obj [("products", .arr [])]),
   .resp 200 (.obj [("status", .num 1),
     ("product", .obj [("product_name", .str "Apple")])])⟩

/-- Counterexample for C4 as stated: on an empty search result the
myRecipeAgent3 variant of get_nutrition_data returns the failure outcome
directly, never attempting the identifier lookup (its request log stops at
the search), even though the identifier endpoint would have succeeded, as
running the myRecipeAgent2 variant on the same environment shows. -/
theorem nutrition_adapter_c4_counterexample :
    (get_nutrition_data_v3 envN4 "apple").1 =
      .ok (.err "Could not retrieve nutritional data from the API.") ∧
    (get_nutrition_data_v3 envN4 "apple").2 = [Req.offSearch "apple"] ∧
    (get_nutrition_data envN4 "apple").1 =
      .ok (productFields [("product_name", .str "Apple")]) :=
  ⟨rfl, rfl, rfl⟩

-- ── C5: recipe adapter and substring semantics ────────────────────────────

/-- Case-insensitive (ASCII) prefix test, following the spec words. -/
def isPrefCI : List Char → List Char → Bool
  | [], _ => true
  | _ :: _, [] => false
  | c :: p, a :: t => (c.toLower == a.toLower) && isPrefCI p t

/-- Case-insensitive (ASCII) substring test, following the spec words: some
suffix of the text starts with the query. -/
def specSubstrCI (q : List Char) : List Char → Bool
  | [] => isPrefCI q []
  | a :: t2 => isPrefCI q (a :: t2) || specSubstrCI q t2

/-- The empty pattern matches exactly the empty text. -/
theorem likeM_nil (t : List Char) : likeM [] t = t.isEmpty := rfl

/-- Some tail of any text is empty, so a trailing percent always matches. -/
theorem tails_any_nil (t : List Char) :
    (List.tails t).any (fun s => likeM [] s) = true := by
  induction t with
  | nil => rfl
  | cons a t ih => simp only [List.tails_cons, List.any_cons, ih, Bool.or_true]

/-- On a wildcard-free pattern, matching the pattern followed by a percent
is the case-insensitive prefix test. -/
theorem likeM_append_percent (p : List Char) (hw : ∀ c ∈ p, c ≠ '%' ∧ c ≠ '_') :
    ∀ t, likeM (p ++ ['%']) t = isPrefCI p t := by
  induction p with
  | nil => intro t; simp [likeM, isPrefCI, tails_any_nil]
  | cons c p ih =>
    intro t
    have hc1 : (c == '%') = false := by
      simpa using (hw c (List.mem_cons_self c p)).1
    have hc2 : (c == '_') = false := by
      simpa using (hw c (List.mem_cons_self c p)).2
    have hw2 : ∀ a ∈ p, a ≠ '%' ∧ a ≠ '_' :=
      fun a ha => hw a (List.mem_cons_of_mem c ha)
    cases t with
    | nil => simp [likeM, isPrefCI, hc1, hc2]
    | cons a t2 => simp [likeM, isPrefCI, hc1, hc2, ih hw2 t2]

/-- Scanning every tail with the prefix test is the substring test. -/
theorem tails_any_isPrefCI (q : List Char) :
    ∀ t, (List.tails t).any (fun s => isPrefCI q s) = specSubstrCI q t := by
  intro t
  induction t with
  | nil => simp [specSubstrCI]
  | cons a t2 ih =>
    simp only [List.tails_cons, List.any_cons, ih, specSubstrCI]

/-- On a wildcard-free query, the LIKE pattern percent-query-percent is the
case-insensitive substring test. -/
theorem likeM_eq_specSubstrCI (q : List Char)
    (hw : ∀ c ∈ q, c ≠ '%' ∧ c ≠ '_') :
    ∀ t, likeM ('%' :: (q ++ ['%'])) t = specSubstrCI q t := by
  intro t
  have hfun : (fun s => likeM (q ++ ['%']) s) = (fun s => isPrefCI q s) :=
    funext (likeM_append_percent q hw)
  simp only [likeM, beq_self_eq_true, if_true, hfun, tails_any_isPrefCI]

/-- The prefix test holds exactly when the text decomposes as the query (up
to ASCII case) followed by a remainder. -/
theorem isPrefCI_iff (q : List Char) :
    ∀ t, isPrefCI q t = true ↔
      ∃ t1 t2, t = t1 ++ t2 ∧ t1.map Char.toLower = q.map Char.toLower := by
  induction q with
  | nil =>
    intro t
    constructor
    · intro _; exact ⟨[], t, rfl, rfl⟩
    · intro _; rfl
  | cons c q ih =>
    intro t
    cases t with
    | nil =>
      simp only [isPrefCI]
      constructor
      · intro h; cases h
      · rintro ⟨t1, t2, h12, hm⟩
        have h1 : t1 = [] := by
          cases t1 with
          | nil => rfl
          | cons x xs => simp at h12
        subst h1
        simp at hm
    | cons a t2 =>
      simp only [isPrefCI, Bool.and_eq_true, beq_iff_eq]
      constructor
      · rintro ⟨hca, hpref⟩
        obtain ⟨u, v, huv, hm⟩ := (ih t2).mp hpref
        exact ⟨a :: u, v, by simp [huv], by simp [hm, hca]⟩
      · rintro ⟨t1, t3, h13, hm⟩
        cases t1 with
        | nil => simp at hm
        | cons b t1b =>
          simp only [List.cons_append, List.cons.injEq] at h13
          obtain ⟨hab, ht⟩ := h13
          subst hab
          simp only [List.map_cons, List.cons.injEq] at hm
          obtain ⟨hlow, hmap⟩ := hm
          exact ⟨hlow.symm, (ih t2).mpr ⟨t1b, t3, ht, hmap⟩⟩

/-- The substring test holds exactly when the text decomposes around an
occurrence of the query, up to ASCII case. -/
theorem specSubstrCI_iff (q : List Char) :
    ∀ t, specSubstrCI q t = true ↔
      ∃ t1 t2 t3, t = t1 ++ t2 ++ t3 ∧
        t2.map Char.toLower = q.map Char.toLower := by
  intro t
  induction t with
  | nil =>
    simp only [specSubstrCI]
    rw [isPrefCI_iff]
    constructor
    · rintro ⟨t1, t2, h12, hm⟩
      obtain ⟨h1, h2⟩ := List.append_eq_nil.mp h12.symm
      subst h1
      subst h2
      exact ⟨[], [], [], rfl, hm⟩
    · rintro ⟨t1, t2, t3, h123, hm⟩
      obtain ⟨h12, h3⟩ := List.append_eq_nil.mp h123.symm
      obtain ⟨h1, h2⟩ := List.append_eq_nil.mp h12
      subst h2
      exact ⟨[], [], rfl, hm⟩
  | cons a t2 ih =>
    simp only [specSubstrCI, Bool.or_eq_true]
    constructor
    · rintro (hpref | hrec)
      · obtain ⟨u, v, huv, hm⟩ := (isPrefCI_iff q (a :: t2)).mp hpref
        exact ⟨[], u, v, by simp [huv], hm⟩
      · obtain ⟨u, v, w, hvw, hm⟩ := ih.mp hrec
        exact ⟨a :: u, v, w, by simp [hvw], hm⟩
    · rintro ⟨t1, u, v, h1uv, hm⟩
      cases t1 with
      | nil =>
        left
        exact (isPrefCI_iff q (a :: t2)).mpr ⟨u, v, by simpa using h1uv, hm⟩
      | cons b t1b =>
        right
        simp only [List.cons_append, List.cons.injEq] at h1uv
        exact ih.mpr ⟨t1b, u, v, h1uv.2, hm⟩

/-- C5 amended: for every wildcard-free query (no percent or underscore
characters, which SQLite LIKE treats as wildcards), get_recipe_details
performs a case-insensitive substring match of the query against the Title
field and returns the first matching row's title, ingredients and
instructions, a not-found failure value when no row matches, and a
database-error failure value when the store raises an I/O error; the
substring test means exactly that the title decomposes around an occurrence
of the query up to ASCII case. -/
theorem recipe_adapter_c5 :
    (∀ rows q, (∀ c ∈ q.data, c ≠ '%' ∧ c ≠ '_') →
      get_recipe_details (.table rows) q = .ok
        (match rows.find? (fun r => specSubstrCI q.data r.Title.data) with
         | some r => .found r.Title r.Ingredients r.Instructions
         | none => .err "Recipe not found in the local database.")) ∧
    (∀ q m, get_recipe_details (.ioError m) q =
      .ok (.err ("Database error: " ++ m))) ∧
    (∀ (q t : List Char), specSubstrCI q t = true ↔
      ∃ t1 t2 t3, t = t1 ++ t2 ++ t3 ∧
        t2.map Char.toLower = q.map Char.toLower) := by
  refine ⟨?_, fun q m => rfl, specSubstrCI_iff⟩
  intro rows q hw
  have hfun : (fun r : RecipeRow => likeM ('%' :: (q.data ++ ['%'])) r.Title.data)
      = (fun r : RecipeRow => specSubstrCI q.data r.Title.data) :=
    funext (fun r => likeM_eq_specSubstrCI q.data hw r.Title.data)
  simp only [get_recipe_details, recipeRaw, pyCatchAll, hfun]
  rcases hf : List.find? (fun r => specSubstrCI q.data r.Title.data) rows with _ | r <;>
    simp [hf]

/-- A store holding one pancake recipe. -/
def dbPancakes : DbEnv :=
  .table [⟨"Classic Pancakes", "flour, milk, eggs", "Mix and fry."⟩]

/-- Witness for C5: a concrete wildcard-free query found by substring match. -/
theorem recipe_adapter_c5_witness :
    get_recipe_details dbPancakes "pancake" =
      .ok (.found "Classic Pancakes" "flour, milk, eggs" "Mix and fry.") :=
  (recipe_adapter_c5.1 [⟨"Classic Pancakes", "flour, milk, eggs", "Mix and fry."⟩]
    "pancake" (by decide))

/-- A store whose single title matches the LIKE pattern of an underscore
query without containing the query as a substring. -/
def dbUnderscore : DbEnv := .table [⟨"axb", "ing", "ins"⟩]

/-- Counterexample for C5 as stated: on the query a-underscore-b, LIKE
treats the underscore as a single-character wildcard, so the adapter
returns the row titled axb although the query is not a case-insensitive
substring of that title; under the claimed substring semantics the result
would have been the not-found failure. -/
theorem recipe_adapter_c5_counterexample :
    get_recipe_details dbUnderscore "a_b" = .ok (.found "axb" "ing" "ins") ∧
    specSubstrCI "a_b".data "axb".data = false :=
  ⟨rfl, rfl⟩
